import Mathlib

/-!
Shallow embedding of src/mqtt.py: the JWT claim set (create_jwt, lines 29-45),
the simulated environmental state and its random walk (main, lines 160-197),
the composite G-index expression (lines 199-200) and the publish loop with its
teardown (lines 184-231). Floating point values are idealised as real numbers.
The module-level random generator seeded at line 160 is modelled as an
injectable source of draws, indexed by call order; the design document makes
bit-level reproduction of the generator a non-goal and asks for an injectable
pseudo-random source, so only the call structure (which call feeds which
quantity, with which distribution parameters) is kept.
-/

namespace Mqtt

/-- Error taxonomy of the embedded code. TypeError is what Python raises for
the xor operator on float operands; ValueError is math.sqrt of a negative
argument; ZeroDivisionError is float division by exactly zero.
CredentialExpiredError is the error the design document names for a lapsed
token; the code never raises it, and it appears here only so that claims
about it can be stated. -/
inductive PyErr where
  | typeError
  | valueError
  | zeroDivisionError
  | credentialExpiredError
  deriving DecidableEq

/-- Injectable pseudo-random source, standing for the module generator after
random.seed(device_id) at line 160. unif k is the result of the (k+1)-st call
to random.random(); norm mu sigma k is the result of the (k+1)-st call to
random.normalvariate(mu, sigma). Both counters advance in program order; the
exact indexing is documented at initEnv, temperature_trend and advance. -/
structure Rand where
  unif : ℕ → ℝ
  norm : ℝ → ℝ → ℕ → ℝ

/-- The 12 simulated quantities, with the variable names of main
(lines 163-174). -/
structure EnvState where
  simulated_temp : ℝ
  simulated_temp_out : ℝ
  sim_pressure : ℝ
  sim_hum : ℝ
  sim_hum_out : ℝ
  sim_uv : ℝ
  sim_irr : ℝ
  sim_smoist : ℝ
  sim_co2 : ℝ
  sim_ch4 : ℝ
  sim_n20 : ℝ
  sim_cfc : ℝ

/-- Lines 163-174: every quantity starts at base + random.random() * range,
consuming unif 0 through unif 11 in source line order. -/
noncomputable def initEnv (r : Rand) : EnvState where
  simulated_temp := 45 + r.unif 0 * 20
  simulated_temp_out := 35 + r.unif 1 * 10
  sim_pressure := 1000 + r.unif 2 * 25
  sim_hum := 25 + r.unif 3 * 30
  sim_hum_out := 15 + r.unif 4 * 30
  sim_uv := 5 + r.unif 5 * 10
  sim_irr := 6 + r.unif 6 * 10
  sim_smoist := 50 + r.unif 7 * 10
  sim_co2 := 430 + r.unif 8 * 50
  sim_ch4 := 1900 + r.unif 9 * 200
  sim_n20 := 330 + r.unif 10 * 100
  sim_cfc := 900 + r.unif 11 * 300

/-- The sign (1 if random.random() > 0.5 else -1) drawn per non-temperature
quantity per tick at lines 188-197; k is the unif counter of that call. -/
noncomputable def coin (r : Rand) (k : ℕ) : ℤ :=
  if r.unif k > 1/2 then 1 else -1

/-- Lines 178-181: the temperature trend, drawn once (unif 12, the first call
after the 12 initial draws) and never reassigned afterwards. -/
noncomputable def temperature_trend (r : Rand) : ℤ :=
  if r.unif 12 > 1/2 then 1 else -1

/-- One run of the loop body of lines 186-197, at the (t+1)-st tick (t counts
from 0). Call-order indexing: this tick issues the normalvariate calls
numbered 12*t through 12*t+11 and the random() calls numbered 13+10*t through
13+10*t+9, both in source line order; the two temperature lines use
normalvariate(0.01, 0.005) signed by the fixed trend, every other line uses
normalvariate(0.1, 0.01) signed by its own coin, and sim_hum_out subtracts
its coin-signed draw where every other line adds. -/
noncomputable def advance (r : Rand) (trend : ℤ) (t : ℕ) (s : EnvState) : EnvState where
  simulated_temp := s.simulated_temp + (trend : ℝ) * r.norm 0.01 0.005 (12*t)
  simulated_temp_out := s.simulated_temp_out + (trend : ℝ) * r.norm 0.01 0.005 (12*t+1)
  sim_pressure := s.sim_pressure + (coin r (13+10*t) : ℝ) * r.norm 0.1 0.01 (12*t+2)
  sim_hum := s.sim_hum + (coin r (13+10*t+1) : ℝ) * r.norm 0.1 0.01 (12*t+3)
  sim_hum_out := s.sim_hum_out - (coin r (13+10*t+2) : ℝ) * r.norm 0.1 0.01 (12*t+4)
  sim_uv := s.sim_uv + (coin r (13+10*t+3) : ℝ) * r.norm 0.1 0.01 (12*t+5)
  sim_irr := s.sim_irr + (coin r (13+10*t+4) : ℝ) * r.norm 0.1 0.01 (12*t+6)
  sim_smoist := s.sim_smoist + (coin r (13+10*t+5) : ℝ) * r.norm 0.1 0.01 (12*t+7)
  sim_co2 := s.sim_co2 + (coin r (13+10*t+6) : ℝ) * r.norm 0.1 0.01 (12*t+8)
  sim_ch4 := s.sim_ch4 + (coin r (13+10*t+7) : ℝ) * r.norm 0.1 0.01 (12*t+9)
  sim_n20 := s.sim_n20 + (coin r (13+10*t+8) : ℝ) * r.norm 0.1 0.01 (12*t+10)
  sim_cfc := s.sim_cfc + (coin r (13+10*t+9) : ℝ) * r.norm 0.1 0.01 (12*t+11)

/-- The state after t ticks of a session driven by r: the session draws the
trend once (temperature_trend r) and then applies advance with that same
trend at every tick. -/
noncomputable def stateTrace (r : Rand) : ℕ → EnvState
  | 0 => initEnv r
  | t+1 => advance r (temperature_trend r) t (stateTrace r t)

/-- math.sqrt, which raises ValueError on a negative argument. -/
noncomputable def pySqrt (x : ℝ) : Except PyErr ℝ :=
  if x < 0 then .error .valueError else .ok (Real.sqrt x)

/-- The Python operator written between the temperature difference and the
rest of the numerator at line 199 is bitwise xor, which is not defined for
float operands: whatever the operand values, the operation raises TypeError. -/
def pyXorFloat (_a _b : ℝ) : Except PyErr ℝ := .error .typeError

/-- Python float division, which raises ZeroDivisionError when the divisor
is exactly zero. -/
noncomputable def pyDivFloat (a b : ℝ) : Except PyErr ℝ :=
  if b = 0 then .error .zeroDivisionError else .ok (a / b)

/-- Lines 199-200 exactly as Python parses them. The xor operator binds
looser than +, -, * and /, so the parenthesised numerator reads as
(simulated_temp - simulated_temp_out) xor
(3/500 + sqrt(sqrt(ch4+co2+n20+cfc)) - 10*(smoist+irr) + uv), evaluated left
to right: the sqrt calls run first (ValueError if an argument is negative),
then the xor raises TypeError because both operands are floats, and the
division by (sim_pressure + (sim_hum - sim_hum_out)) is never reached. -/
noncomputable def g_score_code (s : EnvState) : Except PyErr ℝ := do
  let inner ← pySqrt (s.sim_ch4 + s.sim_co2 + s.sim_n20 + s.sim_cfc)
  let outer ← pySqrt inner
  let num ← pyXorFloat (s.simulated_temp - s.simulated_temp_out)
    (3/500 + outer - 10 * (s.sim_smoist + s.sim_irr) + s.sim_uv)
  pyDivFloat num (s.sim_pressure + (s.sim_hum - s.sim_hum_out))

/-- Modelled from the spec, section 4.3: the expression of lines 199-200 with
the ambiguous operator read as the arithmetic cube of the temperature
difference, applied before the division by 500 - the reading the design
document directs implementers to use. The sqrt domain failure and the
zero-divisor failure keep the Python behaviour. -/
noncomputable def g_score_cube (s : EnvState) : Except PyErr ℝ := do
  let inner ← pySqrt (s.sim_ch4 + s.sim_co2 + s.sim_n20 + s.sim_cfc)
  let outer ← pySqrt inner
  pyDivFloat ((s.simulated_temp - s.simulated_temp_out)^3 / 500 + outer
      - 10 * (s.sim_smoist + s.sim_irr) + s.sim_uv)
    (s.sim_pressure + (s.sim_hum - s.sim_hum_out))

/-- JWT claim set. iat and exp are unix seconds: PyJWT serialises datetime
claims at second granularity. -/
structure JwtClaims where
  iat : ℕ
  exp : ℕ
  aud : String
  deriving DecidableEq

/-- Lines 29-36: the claim set built by create_jwt. The iat and exp fields
come from two separate datetime.datetime.utcnow() calls: t1 is the reading
taken for iat, t2 the reading taken for exp, and exp adds 60 minutes to t2. -/
def create_jwt (project_id : String) (t1 t2 : ℕ) : JwtClaims :=
  { iat := t1, exp := t2 + 3600, aud := project_id }

/-- message_type flag of lines 100-105: a telemetry event or a device state
message. -/
inductive MsgType where
  | event
  | state
  deriving DecidableEq

/-- Line 156: sub_topic is the string events for event messages and state
for state messages. -/
def sub_topic : MsgType → String
  | .event => "events"
  | .state => "state"

/-- Line 158: the topic /devices/{device_id}/{sub_topic}. -/
def mqtt_topic (device_id : String) (m : MsgType) : String :=
  "/devices/" ++ device_id ++ "/" ++ sub_topic m

/-- Line 227: the cadence, time.sleep(1) for events and time.sleep(5) for
state messages. -/
def tick_sleep (m : MsgType) : ℕ :=
  match m with
  | .event => 1
  | .state => 5

/-- Lines 204-217: the per-tick record. timestamp is int(time.time()) at the
tick, device is the device id, the 12 sensor fields are the current state
and g_index is the computed score. -/
structure Payload where
  timestamp : ℤ
  device : String
  sensors : EnvState
  g_index : ℝ

/-- Observable actions of a session, in program order: a publish to the
broker (line 224; qos 1 is at-least-once), a sleep for the cadence
(line 227), the loop_stop teardown (line 230), and an uncaught exception
ending the run. -/
inductive Event where
  | publish (topic : String) (payload : Payload) (qos : ℕ)
  | sleep (seconds : ℕ)
  | teardown
  | raise (e : PyErr)

/-- The publish loop of lines 184-227, parametrised by the g-score evaluator
gs (g_score_code for the literal parse, g_score_cube for the cube reading),
by the absolute tick index t and by the remaining iteration count. Each
iteration advances the state and evaluates gs on the new state; when gs
fails the exception propagates - there is no handler in the loop, so that
iteration publishes nothing and no later iteration runs - and otherwise the
record is published with qos 1 and the loop sleeps for the cadence. -/
noncomputable def loopWith (gs : EnvState → Except PyErr ℝ) (r : Rand) (clock : ℕ → ℤ)
    (device_id : String) (m : MsgType) (trend : ℤ) : ℕ → ℕ → EnvState → List Event
  | _, 0, _ => []
  | t, rem+1, s =>
    let s1 := advance r trend t s
    match gs s1 with
    | .error e => [.raise e]
    | .ok g =>
      .publish (mqtt_topic device_id m) ⟨clock t, device_id, s1, g⟩ 1 ::
        .sleep (tick_sleep m) ::
        loopWith gs r clock device_id m trend (t+1) rem s1

/-- First uncaught exception of an event list, if any. -/
def raisedOf : List Event → Option PyErr
  | [] => none
  | .raise e :: _ => some e
  | _ :: es => raisedOf es

/-- The publish calls of an event list, in order. -/
def pubsOf : List Event → List (String × Payload)
  | [] => []
  | .publish topic p _ :: es => (topic, p) :: pubsOf es
  | _ :: es => pubsOf es

/-- How many loop_stop teardown requests an event list contains. -/
def teardownCount : List Event → ℕ
  | [] => 0
  | .teardown :: es => teardownCount es + 1
  | _ :: es => teardownCount es

/-- The four identity flags of parse_command_line_args that main consumes. -/
structure DeviceIdentity where
  project_id : String
  cloud_region : String
  registry_id : String
  device_id : String

/-- Lines 124-130: the MQTT client id string. -/
def client_id_of (ident : DeviceIdentity) : String :=
  "projects/" ++ ident.project_id ++ "/locations/" ++ ident.cloud_region ++
    "/registries/" ++ ident.registry_id ++ "/devices/" ++ ident.device_id

/-- Observable outcome of one whole run of main: the client id handed to the
transport, the token set as the connection password, and the event list. -/
structure RunResult where
  mqtt_client_id : String
  password : JwtClaims
  events : List Event

/-- Lines 119-231: main, parametrised by the g-score evaluator. The token is
created once - its two utcnow readings are t1 and t2 - and stored as the
password; nothing later reads it back. The loop starts from the freshly
seeded initial state with the once-drawn trend. client.loop_stop() at
line 230 runs only when the loop finishes without an exception, because an
uncaught exception propagates out of main past it. -/
noncomputable def mainWith (gs : EnvState → Except PyErr ℝ) (ident : DeviceIdentity)
    (m : MsgType) (num_messages t1 t2 : ℕ) (r : Rand) (clock : ℕ → ℤ) : RunResult :=
  let es := loopWith gs r clock ident.device_id m (temperature_trend r) 0 num_messages (initEnv r)
  { mqtt_client_id := client_id_of ident
    password := create_jwt ident.project_id t1 t2
    events := match raisedOf es with
      | none => es ++ [Event.teardown]
      | some _ => es }

/-- The run of main with the g-score expression exactly as Python parses it. -/
noncomputable def runCode (ident : DeviceIdentity) (m : MsgType) (num_messages t1 t2 : ℕ)
    (r : Rand) (clock : ℕ → ℤ) : RunResult :=
  mainWith g_score_code ident m num_messages t1 t2 r clock

/-- The run of main with the cube reading of the g-score expression. -/
noncomputable def runCube (ident : DeviceIdentity) (m : MsgType) (num_messages t1 t2 : ℕ)
    (r : Rand) (clock : ℕ → ℤ) : RunResult :=
  mainWith g_score_cube ident m num_messages t1 t2 r clock

/-- Uncaught exception of a run, if any. -/
def errorOf (res : RunResult) : Option PyErr := raisedOf res.events

/-- Whether an Except value is a success. -/
def exceptOk : Except PyErr ℝ → Bool
  | .ok _ => true
  | .error _ => false

/-- Concrete environmental state at which the index expression is evaluated:
the gas sum is 6561 (whose fourth root is 9), the temperature difference is
10, and the denominator is 4. -/
noncomputable def exState : EnvState where
  simulated_temp := 10
  simulated_temp_out := 0
  sim_pressure := 4
  sim_hum := 1
  sim_hum_out := 1
  sim_uv := 1
  sim_irr := 0
  sim_smoist := 0
  sim_co2 := 0
  sim_ch4 := 6561
  sim_n20 := 0
  sim_cfc := 0

/-- Device identity used for the concrete runs. -/
def exId : DeviceIdentity := ⟨"proj", "us-central1", "reg", "dev-1"⟩

/-- Benign random source: every random() call returns 0 and every
normalvariate call returns 0, so the state never moves off its bases. -/
noncomputable def okRand : Rand := ⟨fun _ => 0, fun _ _ _ => 0⟩

/-- The state all of whose quantities sit at their bases: what okRand
produces at initialisation and preserves at every tick. -/
noncomputable def okState : EnvState :=
  ⟨45, 35, 1000, 25, 15, 5, 6, 50, 430, 1900, 330, 900⟩

/-- Random source whose first tick drives the g-score denominator to exactly
zero: the pressure coin (unif call 13) comes up heads and the pressure draw
(normalvariate call 2) is -1010, taking the pressure to -10 while the two
humidities stay at 25 and 15, so pressure + (hum - hum_out) = 0; the
pressure draw of the second tick (normalvariate call 14) is 5, so the second
tick would have denominator -5 and a well-defined score. -/
noncomputable def zdRand : Rand :=
  ⟨fun k => if k = 13 then 0.6 else 0,
   fun _ _ k => if k = 2 then -1010 else if k = 14 then 5 else 0⟩

/-- The state zdRand produces after its first tick. -/
noncomputable def zdState1 : EnvState :=
  ⟨45, 35, -10, 25, 15, 5, 6, 50, 430, 1900, 330, 900⟩

/-- The state zdRand would produce after its second tick. -/
noncomputable def zdState2 : EnvState :=
  ⟨45, 35, -15, 25, 15, 5, 6, 50, 430, 1900, 330, 900⟩

/-- Draw source that steers one advance step at tick t from state s exactly
onto the target state v: every coin comes up tails (-1) and the
normalvariate draws of the tick (calls 12*t through 12*t+11) are solved from
the update equations. Used to show the walk is never clamped. -/
noncomputable def reachRand (trend : ℤ) (t : ℕ) (s v : EnvState) : Rand :=
  ⟨fun _ => 0, fun _ _ k =>
    [(trend : ℝ) * (v.simulated_temp - s.simulated_temp),
     (trend : ℝ) * (v.simulated_temp_out - s.simulated_temp_out),
     s.sim_pressure - v.sim_pressure,
     s.sim_hum - v.sim_hum,
     v.sim_hum_out - s.sim_hum_out,
     s.sim_uv - v.sim_uv,
     s.sim_irr - v.sim_irr,
     s.sim_smoist - v.sim_smoist,
     s.sim_co2 - v.sim_co2,
     s.sim_ch4 - v.sim_ch4,
     s.sim_n20 - v.sim_n20,
     s.sim_cfc - v.sim_cfc].getD (k - 12*t) 0⟩

theorem pySqrt_of_nonneg {x : ℝ} (h : 0 ≤ x) : pySqrt x = Except.ok (Real.sqrt x) := by
  simp [pySqrt, not_lt.mpr h]

theorem bind_ok_eq {α β : Type} (a : α) (f : α → Except PyErr β) :
    (Except.ok a >>= f) = f a := rfl

theorem bind_error_eq {α β : Type} (e : PyErr) (f : α → Except PyErr β) :
    ((Except.error e : Except PyErr α) >>= f) = Except.error e := rfl

theorem g_score_code_typeError (s : EnvState)
    (h : 0 ≤ s.sim_ch4 + s.sim_co2 + s.sim_n20 + s.sim_cfc) :
    g_score_code s = Except.error PyErr.typeError := by
  simp [g_score_code, pySqrt_of_nonneg h, pySqrt_of_nonneg (Real.sqrt_nonneg _),
    pyXorFloat, bind_ok_eq, bind_error_eq]

theorem g_score_cube_ok (s : EnvState)
    (h : 0 ≤ s.sim_ch4 + s.sim_co2 + s.sim_n20 + s.sim_cfc)
    (hd : s.sim_pressure + (s.sim_hum - s.sim_hum_out) ≠ 0) :
    g_score_cube s = Except.ok
      (((s.simulated_temp - s.simulated_temp_out)^3 / 500
          + Real.sqrt (Real.sqrt (s.sim_ch4 + s.sim_co2 + s.sim_n20 + s.sim_cfc))
          - 10 * (s.sim_smoist + s.sim_irr) + s.sim_uv)
        / (s.sim_pressure + (s.sim_hum - s.sim_hum_out))) := by
  simp [g_score_cube, pySqrt_of_nonneg h, pySqrt_of_nonneg (Real.sqrt_nonneg _),
    pyDivFloat, hd, bind_ok_eq]

theorem g_score_cube_zeroDiv (s : EnvState)
    (h : 0 ≤ s.sim_ch4 + s.sim_co2 + s.sim_n20 + s.sim_cfc)
    (hd : s.sim_pressure + (s.sim_hum - s.sim_hum_out) = 0) :
    g_score_cube s = Except.error PyErr.zeroDivisionError := by
  simp [g_score_cube, pySqrt_of_nonneg h, pySqrt_of_nonneg (Real.sqrt_nonneg _),
    pyDivFloat, hd, bind_ok_eq]

theorem loopWith_zero (gs : EnvState → Except PyErr ℝ) (r : Rand) (clock : ℕ → ℤ)
    (d : String) (m : MsgType) (trend : ℤ) (t : ℕ) (s : EnvState) :
    loopWith gs r clock d m trend t 0 s = [] := rfl

theorem loopWith_error (gs : EnvState → Except PyErr ℝ) (r : Rand) (clock : ℕ → ℤ)
    (d : String) (m : MsgType) (trend : ℤ) (t rem : ℕ) (s : EnvState) (e : PyErr)
    (h : gs (advance r trend t s) = Except.error e) :
    loopWith gs r clock d m trend t (rem+1) s = [Event.raise e] := by
  simp only [loopWith, h]

theorem loopWith_ok (gs : EnvState → Except PyErr ℝ) (r : Rand) (clock : ℕ → ℤ)
    (d : String) (m : MsgType) (trend : ℤ) (t rem : ℕ) (s : EnvState) (g : ℝ)
    (h : gs (advance r trend t s) = Except.ok g) :
    loopWith gs r clock d m trend t (rem+1) s =
      Event.publish (mqtt_topic d m) ⟨clock t, d, advance r trend t s, g⟩ 1 ::
        Event.sleep (tick_sleep m) ::
        loopWith gs r clock d m trend (t+1) rem (advance r trend t s) := by
  simp only [loopWith, h]

theorem advance_okRand (trend : ℤ) (t : ℕ) (s : EnvState) :
    advance okRand trend t s = s := by
  cases s
  simp [advance, okRand]

theorem initEnv_okRand : initEnv okRand = okState := by
  norm_num [initEnv, okRand, okState]

theorem initEnv_zdRand : initEnv zdRand = okState := by
  norm_num [initEnv, zdRand, okState]

theorem zd_step1 :
    advance zdRand (temperature_trend zdRand) 0 (initEnv zdRand) = zdState1 := by
  rw [initEnv_zdRand]
  norm_num [advance, zdRand, okState, zdState1, coin, temperature_trend]

theorem zd_step2 :
    advance zdRand (temperature_trend zdRand) 1 zdState1 = zdState2 := by
  norm_num [advance, zdRand, zdState1, zdState2, coin, temperature_trend]

theorem mainWith_events (gs : EnvState → Except PyErr ℝ) (ident : DeviceIdentity)
    (m : MsgType) (N t1 t2 : ℕ) (r : Rand) (clock : ℕ → ℤ) :
    (mainWith gs ident m N t1 t2 r clock).events =
      (match raisedOf (loopWith gs r clock ident.device_id m (temperature_trend r) 0 N (initEnv r)) with
       | none => loopWith gs r clock ident.device_id m (temperature_trend r) 0 N (initEnv r) ++ [Event.teardown]
       | some _ => loopWith gs r clock ident.device_id m (temperature_trend r) 0 N (initEnv r)) := rfl

theorem mainWith_password (gs : EnvState → Except PyErr ℝ) (ident : DeviceIdentity)
    (m : MsgType) (N t1 t2 : ℕ) (r : Rand) (clock : ℕ → ℤ) :
    (mainWith gs ident m N t1 t2 r clock).password = create_jwt ident.project_id t1 t2 := rfl

theorem raisedOf_append (es es' : List Event) :
    raisedOf (es ++ es') =
      (match raisedOf es with
       | some e => some e
       | none => raisedOf es') := by
  induction es with
  | nil => rfl
  | cons a es ih =>
    cases a with
    | publish topic p q => simpa [raisedOf] using ih
    | sleep k => simpa [raisedOf] using ih
    | teardown => simpa [raisedOf] using ih
    | raise e => simp [raisedOf]

theorem teardownCount_append (es es' : List Event) :
    teardownCount (es ++ es') = teardownCount es + teardownCount es' := by
  induction es with
  | nil => simp [teardownCount]
  | cons a es ih =>
    cases a with
    | publish topic p q => simpa [teardownCount] using ih
    | sleep k => simpa [teardownCount] using ih
    | teardown => simp [teardownCount, ih]; ring
    | raise e => simpa [teardownCount] using ih

theorem teardownCount_loopWith (gs : EnvState → Except PyErr ℝ) (r : Rand) (clock : ℕ → ℤ)
    (d : String) (m : MsgType) (trend : ℤ) :
    ∀ (rem t : ℕ) (s : EnvState), teardownCount (loopWith gs r clock d m trend t rem s) = 0 := by
  intro rem
  induction rem with
  | zero => intro t s; rfl
  | succ n ih =>
    intro t s
    cases h : gs (advance r trend t s) with
    | error e => rw [loopWith_error gs r clock d m trend t n s e h]; rfl
    | ok g =>
      rw [loopWith_ok gs r clock d m trend t n s g h]
      simpa [teardownCount] using ih (t+1) (advance r trend t s)

theorem g_score_cube_cases (s : EnvState) :
    g_score_cube s = Except.error PyErr.valueError ∨
    g_score_cube s = Except.error PyErr.zeroDivisionError ∨
    ∃ g, g_score_cube s = Except.ok g := by
  rcases lt_or_le (s.sim_ch4 + s.sim_co2 + s.sim_n20 + s.sim_cfc) 0 with h | h
  · left
    simp [g_score_cube, pySqrt, h, bind_error_eq]
  · rcases eq_or_ne (s.sim_pressure + (s.sim_hum - s.sim_hum_out)) 0 with hd | hd
    · right; left; exact g_score_cube_zeroDiv s h hd
    · right; right; exact ⟨_, g_score_cube_ok s h hd⟩

theorem raisedOf_loopWith_cube (r : Rand) (clock : ℕ → ℤ) (d : String) (m : MsgType) (trend : ℤ) :
    ∀ (rem t : ℕ) (s : EnvState),
      raisedOf (loopWith g_score_cube r clock d m trend t rem s) = none ∨
      raisedOf (loopWith g_score_cube r clock d m trend t rem s) = some PyErr.valueError ∨
      raisedOf (loopWith g_score_cube r clock d m trend t rem s) = some PyErr.zeroDivisionError := by
  intro rem
  induction rem with
  | zero => intro t s; left; rfl
  | succ n ih =>
    intro t s
    rcases g_score_cube_cases (advance r trend t s) with h | h | ⟨g, h⟩
    · rw [loopWith_error g_score_cube r clock d m trend t n s _ h]
      right; left; rfl
    · rw [loopWith_error g_score_cube r clock d m trend t n s _ h]
      right; right; rfl
    · rw [loopWith_ok g_score_cube r clock d m trend t n s g h]
      simpa [raisedOf] using ih (t+1) (advance r trend t s)

/-- C1: the per-tick index computation does not evaluate the arithmetic
formula. At the state exState the code as written raises TypeError - the
caret of line 199 is a bitwise xor, undefined on floats and binding below
the other arithmetic operators - while the arithmetic-cube formula the spec
states evaluates there to the real number 3. -/
theorem c1_index_xor_raises_typeError :
    g_score_code exState = Except.error PyErr.typeError ∧
    g_score_cube exState = Except.ok 3 := by
  have hsum : (0:ℝ) ≤ exState.sim_ch4 + exState.sim_co2 + exState.sim_n20 + exState.sim_cfc := by
    simp only [exState]
    norm_num
  have h1 : Real.sqrt 6561 = 81 := by
    rw [show (6561 : ℝ) = 81 ^ 2 by norm_num]
    exact Real.sqrt_sq (by norm_num)
  have h2 : Real.sqrt 81 = 9 := by
    rw [show (81 : ℝ) = 9 ^ 2 by norm_num]
    exact Real.sqrt_sq (by norm_num)
  refine ⟨g_score_code_typeError _ hsum, ?_⟩
  rw [g_score_cube_ok _ hsum (by simp only [exState]; norm_num)]
  simp only [exState]
  norm_num [h1, h2]

/-- C5 (amended): the audience of every issued token is the project id, iat
is the first clock reading, exp is 60 minutes after the second clock reading;
exp equals iat + 60 minutes exactly when the two utcnow readings agree. -/
theorem c5_token_claims (project_id : String) (t1 t2 : ℕ) :
    (create_jwt project_id t1 t2).aud = project_id ∧
    (create_jwt project_id t1 t2).iat = t1 ∧
    (create_jwt project_id t1 t2).exp = t2 + 3600 ∧
    (t1 = t2 → (create_jwt project_id t1 t2).exp = (create_jwt project_id t1 t2).iat + 3600) := by
  exact ⟨rfl, rfl, rfl, fun h => by simp [create_jwt, h]⟩

/-- C5 counterexample: when the two successive utcnow readings straddle a
second boundary (first reading at second 0, second reading at second 1) the
issued token has exp = 3601 but iat + 3600 = 3600, so the stated invariant
exp = iat + 60 minutes fails. -/
theorem c5_counterexample :
    (create_jwt "proj" 0 1).exp = 3601 ∧
    (create_jwt "proj" 0 1).iat + 3600 = 3600 ∧
    (create_jwt "proj" 0 1).exp ≠ (create_jwt "proj" 0 1).iat + 3600 := by
  exact ⟨rfl, rfl, by decide⟩

/-- C2 (amended): on a tick whose freshly advanced state has a nonnegative
gas sum and a composite-index denominator of exactly zero, the cube reading
of the index computation fails with ZeroDivisionError; the loop has no
handler, so the tick publishes no record and the session terminates at once
with the uncaught error instead of continuing with the remaining ticks.
(Under the literal parse every tick fails even earlier, with TypeError.) -/
theorem c2_divzero_is_fatal (r : Rand) (clock : ℕ → ℤ) (device_id : String)
    (m : MsgType) (trend : ℤ) (t rem : ℕ) (s : EnvState)
    (hsum : 0 ≤ (advance r trend t s).sim_ch4 + (advance r trend t s).sim_co2 +
      (advance r trend t s).sim_n20 + (advance r trend t s).sim_cfc)
    (hden : (advance r trend t s).sim_pressure +
      ((advance r trend t s).sim_hum - (advance r trend t s).sim_hum_out) = 0) :
    loopWith g_score_cube r clock device_id m trend t (rem+1) s =
      [Event.raise PyErr.zeroDivisionError] :=
  loopWith_error g_score_cube r clock device_id m trend t rem s PyErr.zeroDivisionError
    (g_score_cube_zeroDiv _ hsum hden)

/-- C2 witness: the zero-denominator source zdRand at the first tick of a
three-tick loop. -/
theorem c2_witness :
    loopWith g_score_cube zdRand (fun _ => 0) "dev-1" MsgType.event
      (temperature_trend zdRand) 0 3 (initEnv zdRand) =
      [Event.raise PyErr.zeroDivisionError] :=
  c2_divzero_is_fatal zdRand (fun _ => 0) "dev-1" MsgType.event (temperature_trend zdRand) 0 2
    (initEnv zdRand)
    (by rw [zd_step1]; norm_num [zdState1])
    (by rw [zd_step1]; norm_num [zdState1])

/-- C2 counterexample: a three-tick session whose first tick has denominator
exactly zero raises ZeroDivisionError, publishes nothing at all and runs no
further tick - although the second tick would have computed a well-defined
score - so the loop does not continue past the failed tick and the failure
is not absorbed. -/
theorem c2_counterexample :
    (advance zdRand (temperature_trend zdRand) 0 (initEnv zdRand)).sim_pressure +
      ((advance zdRand (temperature_trend zdRand) 0 (initEnv zdRand)).sim_hum -
       (advance zdRand (temperature_trend zdRand) 0 (initEnv zdRand)).sim_hum_out) = 0 ∧
    exceptOk (g_score_cube (advance zdRand (temperature_trend zdRand) 1
      (advance zdRand (temperature_trend zdRand) 0 (initEnv zdRand)))) = true ∧
    pubsOf (runCube exId MsgType.event 3 0 0 zdRand (fun _ => 0)).events = [] ∧
    errorOf (runCube exId MsgType.event 3 0 0 zdRand (fun _ => 0)) =
      some PyErr.zeroDivisionError := by
  have hz : g_score_cube (advance zdRand (temperature_trend zdRand) 0 (initEnv zdRand)) =
      Except.error PyErr.zeroDivisionError := by
    rw [zd_step1]
    exact g_score_cube_zeroDiv _ (by norm_num [zdState1]) (by norm_num [zdState1])
  have hloop := loopWith_error g_score_cube zdRand (fun _ => 0) "dev-1" MsgType.event
    (temperature_trend zdRand) 0 2 (initEnv zdRand) _ hz
  norm_num at hloop
  have hdev : exId.device_id = "dev-1" := rfl
  refine ⟨by rw [zd_step1]; norm_num [zdState1], ?_, ?_, ?_⟩
  · rw [zd_step1, zd_step2,
      g_score_cube_ok zdState2 (by norm_num [zdState2]) (by norm_num [zdState2])]
    rfl
  · simp only [runCube]
    rw [mainWith_events, hdev, hloop]
    simp [raisedOf, pubsOf]
  · simp only [errorOf, runCube]
    rw [mainWith_events, hdev, hloop]
    simp [raisedOf]

/-- C3 (amended): the controller never consults the token after storing it as
the connection password: the whole event trace is unchanged under any change
of the token timestamps, and the only uncaught errors a cube-reading session
can end with are ValueError and ZeroDivisionError - never
CredentialExpiredError, which nothing in the code raises. -/
theorem c3_no_expiry_check :
    (∀ (gs : EnvState → Except PyErr ℝ) (ident : DeviceIdentity) (m : MsgType)
      (N t1 t2 u1 u2 : ℕ) (r : Rand) (clock : ℕ → ℤ),
      (mainWith gs ident m N t1 t2 r clock).events =
        (mainWith gs ident m N u1 u2 r clock).events) ∧
    (∀ (ident : DeviceIdentity) (m : MsgType) (N t1 t2 : ℕ) (r : Rand) (clock : ℕ → ℤ),
      errorOf (runCube ident m N t1 t2 r clock) ∈
        ({none, some PyErr.valueError, some PyErr.zeroDivisionError} : Set (Option PyErr))) := by
  constructor
  · intro gs ident m N t1 t2 u1 u2 r clock
    rfl
  · intro ident m N t1 t2 r clock
    simp only [errorOf, runCube, mainWith_events]
    rcases raisedOf_loopWith_cube r clock ident.device_id m (temperature_trend r) N 0 (initEnv r)
      with h | h | h
    · simp [h, raisedOf_append, raisedOf]
    · simp [h, raisedOf]
    · simp [h, raisedOf]

/-- C3 counterexample: a session whose token is already expired - its exp is
second 3600 while every clock reading during the run is second 1000000 -
still publishes its record and ends without any error: no
CredentialExpiredError, no fail-fast, one publish. -/
theorem c3_counterexample :
    (runCube exId MsgType.event 1 0 0 okRand (fun _ => 1000000)).password.exp = 3600 ∧
    (3600 : ℤ) < 1000000 ∧
    (pubsOf (runCube exId MsgType.event 1 0 0 okRand (fun _ => 1000000)).events).length = 1 ∧
    errorOf (runCube exId MsgType.event 1 0 0 okRand (fun _ => 1000000)) = none := by
  have hg : g_score_cube (advance okRand (temperature_trend okRand) 0 (initEnv okRand)) =
      Except.ok (((okState.simulated_temp - okState.simulated_temp_out)^3 / 500
          + Real.sqrt (Real.sqrt (okState.sim_ch4 + okState.sim_co2 + okState.sim_n20 + okState.sim_cfc))
          - 10 * (okState.sim_smoist + okState.sim_irr) + okState.sim_uv)
        / (okState.sim_pressure + (okState.sim_hum - okState.sim_hum_out))) := by
    rw [advance_okRand, initEnv_okRand]
    exact g_score_cube_ok okState (by norm_num [okState]) (by norm_num [okState])
  have h1 := loopWith_ok g_score_cube okRand (fun _ => 1000000) "dev-1" MsgType.event
    (temperature_trend okRand) 0 0 (initEnv okRand) _ hg
  rw [loopWith_zero] at h1
  norm_num at h1
  have hdev : exId.device_id = "dev-1" := rfl
  refine ⟨rfl, by norm_num, ?_, ?_⟩
  · simp only [runCube]
    rw [mainWith_events, hdev, h1]
    simp [raisedOf, pubsOf]
  · simp only [errorOf, runCube]
    rw [mainWith_events, hdev, h1]
    simp [raisedOf, raisedOf_append]

/-- C4 (code evaluation at the failing input): the loop as written never
publishes: with the benign random source the very first tick raises
TypeError inside the g-score expression, so a one-message session and a
five-message session both publish nothing and end with the uncaught
TypeError rather than performing 1 and 5 publish calls. -/
theorem c4_no_publish_ever :
    pubsOf (runCode exId MsgType.event 1 0 0 okRand (fun _ => 0)).events = [] ∧
    errorOf (runCode exId MsgType.event 1 0 0 okRand (fun _ => 0)) = some PyErr.typeError ∧
    pubsOf (runCode exId MsgType.event 5 0 0 okRand (fun _ => 0)).events = [] := by
  have hg : g_score_code (advance okRand (temperature_trend okRand) 0 (initEnv okRand)) =
      Except.error PyErr.typeError := by
    rw [advance_okRand, initEnv_okRand]
    exact g_score_code_typeError _ (by norm_num [okState])
  have h1 := loopWith_error g_score_code okRand (fun _ => 0) "dev-1" MsgType.event
    (temperature_trend okRand) 0 0 (initEnv okRand) _ hg
  have h5 := loopWith_error g_score_code okRand (fun _ => 0) "dev-1" MsgType.event
    (temperature_trend okRand) 0 4 (initEnv okRand) _ hg
  norm_num at h1 h5
  have hdev : exId.device_id = "dev-1" := rfl
  refine ⟨?_, ?_, ?_⟩
  · simp only [runCode]
    rw [mainWith_events, hdev, h1]
    simp [raisedOf, pubsOf]
  · simp only [errorOf, runCode]
    rw [mainWith_events, hdev, h1]
    simp [raisedOf]
  · simp only [runCode]
    rw [mainWith_events, hdev, h5]
    simp [raisedOf, pubsOf]

/-- C6: the temperature trend is one of +1 and -1, it is a function of the
single initialisation draw unif 12 alone, and at every tick both temperature
quantities move by that same fixed trend times their normalvariate(0.01,
0.005) draws - the trend never changes across the ticks of a session. -/
theorem c6_trend_constant :
    (∀ r : Rand, temperature_trend r = 1 ∨ temperature_trend r = -1) ∧
    (∀ r r' : Rand, r.unif 12 = r'.unif 12 → temperature_trend r = temperature_trend r') ∧
    (∀ (r : Rand) (t : ℕ),
      (stateTrace r (t+1)).simulated_temp =
        (stateTrace r t).simulated_temp + (temperature_trend r : ℝ) * r.norm 0.01 0.005 (12*t) ∧
      (stateTrace r (t+1)).simulated_temp_out =
        (stateTrace r t).simulated_temp_out + (temperature_trend r : ℝ) * r.norm 0.01 0.005 (12*t+1)) := by
  refine ⟨?_, ?_, ?_⟩
  · intro r
    unfold temperature_trend
    split
    · left; rfl
    · right; rfl
  · intro r r' h
    unfold temperature_trend
    rw [h]
  · intro r t
    exact ⟨rfl, rfl⟩

theorem base_bound {b c u : ℝ} (hc : 0 < c) (h0 : 0 ≤ u) (h1 : u < 1) :
    b ≤ b + u * c ∧ b + u * c < b + c :=
  ⟨le_add_of_nonneg_right (mul_nonneg h0 hc.le), by nlinarith⟩

/-- C7: the trajectory is a deterministic function of the seed string - two
runs with the same device identifier and the same pseudo-random source share
every state of the trajectory - and, for draws in [0, 1), every initial
quantity lies in its fixed [base, base + range) interval. -/
theorem c7_seeded_init_bounds :
    (∀ (prng : String → Rand) (d d' : String), d = d' →
      ∀ t : ℕ, stateTrace (prng d) t = stateTrace (prng d') t) ∧
    (∀ r : Rand, (∀ k, k ≤ 11 → 0 ≤ r.unif k ∧ r.unif k < 1) →
      (45 ≤ (initEnv r).simulated_temp ∧ (initEnv r).simulated_temp < 45 + 20) ∧
      (35 ≤ (initEnv r).simulated_temp_out ∧ (initEnv r).simulated_temp_out < 35 + 10) ∧
      (1000 ≤ (initEnv r).sim_pressure ∧ (initEnv r).sim_pressure < 1000 + 25) ∧
      (25 ≤ (initEnv r).sim_hum ∧ (initEnv r).sim_hum < 25 + 30) ∧
      (15 ≤ (initEnv r).sim_hum_out ∧ (initEnv r).sim_hum_out < 15 + 30) ∧
      (5 ≤ (initEnv r).sim_uv ∧ (initEnv r).sim_uv < 5 + 10) ∧
      (6 ≤ (initEnv r).sim_irr ∧ (initEnv r).sim_irr < 6 + 10) ∧
      (50 ≤ (initEnv r).sim_smoist ∧ (initEnv r).sim_smoist < 50 + 10) ∧
      (430 ≤ (initEnv r).sim_co2 ∧ (initEnv r).sim_co2 < 430 + 50) ∧
      (1900 ≤ (initEnv r).sim_ch4 ∧ (initEnv r).sim_ch4 < 1900 + 200) ∧
      (330 ≤ (initEnv r).sim_n20 ∧ (initEnv r).sim_n20 < 330 + 100) ∧
      (900 ≤ (initEnv r).sim_cfc ∧ (initEnv r).sim_cfc < 900 + 300)) := by
  constructor
  · intro prng d d' h t
    rw [h]
  · intro r h
    simp only [initEnv]
    exact ⟨base_bound (by norm_num) (h 0 (by norm_num)).1 (h 0 (by norm_num)).2,
      base_bound (by norm_num) (h 1 (by norm_num)).1 (h 1 (by norm_num)).2,
      base_bound (by norm_num) (h 2 (by norm_num)).1 (h 2 (by norm_num)).2,
      base_bound (by norm_num) (h 3 (by norm_num)).1 (h 3 (by norm_num)).2,
      base_bound (by norm_num) (h 4 (by norm_num)).1 (h 4 (by norm_num)).2,
      base_bound (by norm_num) (h 5 (by norm_num)).1 (h 5 (by norm_num)).2,
      base_bound (by norm_num) (h 6 (by norm_num)).1 (h 6 (by norm_num)).2,
      base_bound (by norm_num) (h 7 (by norm_num)).1 (h 7 (by norm_num)).2,
      base_bound (by norm_num) (h 8 (by norm_num)).1 (h 8 (by norm_num)).2,
      base_bound (by norm_num) (h 9 (by norm_num)).1 (h 9 (by norm_num)).2,
      base_bound (by norm_num) (h 10 (by norm_num)).1 (h 10 (by norm_num)).2,
      base_bound (by norm_num) (h 11 (by norm_num)).1 (h 11 (by norm_num)).2⟩

/-- C8: every advance step has exactly the shape the spec states - the two
temperature quantities move by the fixed trend times their
normalvariate(0.01, 0.005) draws, every other quantity by a per-quantity,
per-tick coin sign in {+1, -1} times its normalvariate(0.1, 0.01) draw, with
sim_hum_out subtracting its coin-signed draw where every other quantity
adds - and no clamping is applied: from any state one advance step can reach
any target state whatsoever, so drift is unbounded. -/
theorem c8_advance_shape :
    (∀ (r : Rand) (trend : ℤ) (t : ℕ) (s : EnvState), ∃ c : ℕ → ℤ,
      (∀ j, c j = 1 ∨ c j = -1) ∧
      (advance r trend t s).simulated_temp
        = s.simulated_temp + (trend : ℝ) * r.norm 0.01 0.005 (12*t) ∧
      (advance r trend t s).simulated_temp_out
        = s.simulated_temp_out + (trend : ℝ) * r.norm 0.01 0.005 (12*t+1) ∧
      (advance r trend t s).sim_pressure = s.sim_pressure + (c 0 : ℝ) * r.norm 0.1 0.01 (12*t+2) ∧
      (advance r trend t s).sim_hum = s.sim_hum + (c 1 : ℝ) * r.norm 0.1 0.01 (12*t+3) ∧
      (advance r trend t s).sim_hum_out = s.sim_hum_out - (c 2 : ℝ) * r.norm 0.1 0.01 (12*t+4) ∧
      (advance r trend t s).sim_uv = s.sim_uv + (c 3 : ℝ) * r.norm 0.1 0.01 (12*t+5) ∧
      (advance r trend t s).sim_irr = s.sim_irr + (c 4 : ℝ) * r.norm 0.1 0.01 (12*t+6) ∧
      (advance r trend t s).sim_smoist = s.sim_smoist + (c 5 : ℝ) * r.norm 0.1 0.01 (12*t+7) ∧
      (advance r trend t s).sim_co2 = s.sim_co2 + (c 6 : ℝ) * r.norm 0.1 0.01 (12*t+8) ∧
      (advance r trend t s).sim_ch4 = s.sim_ch4 + (c 7 : ℝ) * r.norm 0.1 0.01 (12*t+9) ∧
      (advance r trend t s).sim_n20 = s.sim_n20 + (c 8 : ℝ) * r.norm 0.1 0.01 (12*t+10) ∧
      (advance r trend t s).sim_cfc = s.sim_cfc + (c 9 : ℝ) * r.norm 0.1 0.01 (12*t+11)) ∧
    (∀ (trend : ℤ) (t : ℕ) (s v : EnvState), trend = 1 ∨ trend = -1 →
      advance (reachRand trend t s v) trend t s = v) := by
  constructor
  · intro r trend t s
    refine ⟨fun j => coin r (13+10*t+j), ?_, rfl, rfl, ?_, ?_, ?_, ?_, ?_, ?_, ?_, ?_, ?_, ?_⟩
    · intro j
      by_cases h : r.unif (13+10*t+j) > 1/2
      · left
        show coin r (13+10*t+j) = 1
        unfold coin
        rw [if_pos h]
      · right
        show coin r (13+10*t+j) = -1
        unfold coin
        rw [if_neg h]
    all_goals simp [advance, coin]
  · intro trend t s v htr
    have htt : (trend : ℝ) * (trend : ℝ) = 1 := by
      rcases htr with h | h <;> subst h <;> norm_num
    have hcoin : ∀ k, coin (reachRand trend t s v) k = -1 := by
      intro k
      norm_num [coin, reachRand]
    obtain ⟨v1, v2, v3, v4, v5, v6, v7, v8, v9, v10, v11, v12⟩ := v
    simp only [advance, hcoin, EnvState.mk.injEq]
    simp only [reachRand, Nat.add_sub_cancel_left, Nat.sub_self]
    simp [List.getD]
    repeat' apply And.intro
    all_goals
      first
      | linear_combination (v1 - s.simulated_temp) * htt
      | linear_combination (v2 - s.simulated_temp_out) * htt

/-- C9 (amended): teardown discipline of main. The publish loop itself never
requests teardown; when the loop completes without an uncaught error the
events are exactly the loop events followed by one final teardown - teardown
happens exactly once, after the loop has ended - and when the loop ends with
an uncaught error no teardown is requested at all: the fatal-error path
performs zero teardown requests, not one. -/
theorem c9_teardown_discipline (gs : EnvState → Except PyErr ℝ) (ident : DeviceIdentity)
    (m : MsgType) (N t1 t2 : ℕ) (r : Rand) (clock : ℕ → ℤ) :
    teardownCount (loopWith gs r clock ident.device_id m (temperature_trend r) 0 N (initEnv r)) = 0 ∧
    (errorOf (mainWith gs ident m N t1 t2 r clock) = none →
      (mainWith gs ident m N t1 t2 r clock).events =
        loopWith gs r clock ident.device_id m (temperature_trend r) 0 N (initEnv r)
          ++ [Event.teardown] ∧
      teardownCount (mainWith gs ident m N t1 t2 r clock).events = 1) ∧
    (errorOf (mainWith gs ident m N t1 t2 r clock) ≠ none →
      teardownCount (mainWith gs ident m N t1 t2 r clock).events = 0) := by
  have h0 : teardownCount
      (loopWith gs r clock ident.device_id m (temperature_trend r) 0 N (initEnv r)) = 0 :=
    teardownCount_loopWith gs r clock ident.device_id m (temperature_trend r) N 0 (initEnv r)
  have herr : errorOf (mainWith gs ident m N t1 t2 r clock) =
      raisedOf (loopWith gs r clock ident.device_id m (temperature_trend r) 0 N (initEnv r)) := by
    simp only [errorOf, mainWith_events]
    cases h : raisedOf (loopWith gs r clock ident.device_id m (temperature_trend r) 0 N (initEnv r)) with
    | none => simp [h, raisedOf_append, raisedOf]
    | some e => simp [h]
  refine ⟨h0, ?_, ?_⟩
  · intro he
    rw [herr] at he
    have hev : (mainWith gs ident m N t1 t2 r clock).events =
        loopWith gs r clock ident.device_id m (temperature_trend r) 0 N (initEnv r)
          ++ [Event.teardown] := by
      rw [mainWith_events, he]
    refine ⟨hev, ?_⟩
    rw [hev, teardownCount_append, h0]
    rfl
  · intro he
    rw [herr] at he
    cases h : raisedOf (loopWith gs r clock ident.device_id m (temperature_trend r) 0 N (initEnv r)) with
    | none => exact absurd h he
    | some e =>
      have hev : (mainWith gs ident m N t1 t2 r clock).events =
          loopWith gs r clock ident.device_id m (temperature_trend r) 0 N (initEnv r) := by
        rw [mainWith_events, h]
      rw [hev]
      exact h0

/-- C9 counterexample: a run that ends with a fatal error (the TypeError of
the first tick) performs zero teardown requests rather than exactly one: the
uncaught exception propagates out of main past client.loop_stop(). -/
theorem c9_counterexample :
    errorOf (runCode exId MsgType.event 1 0 0 okRand (fun _ => 0)) = some PyErr.typeError ∧
    teardownCount (runCode exId MsgType.event 1 0 0 okRand (fun _ => 0)).events = 0 := by
  have hg : g_score_code (advance okRand (temperature_trend okRand) 0 (initEnv okRand)) =
      Except.error PyErr.typeError := by
    rw [advance_okRand, initEnv_okRand]
    exact g_score_code_typeError _ (by norm_num [okState])
  have h1 := loopWith_error g_score_code okRand (fun _ => 0) "dev-1" MsgType.event
    (temperature_trend okRand) 0 0 (initEnv okRand) _ hg
  norm_num at h1
  have hdev : exId.device_id = "dev-1" := rfl
  constructor
  · simp only [errorOf, runCode]
    rw [mainWith_events, hdev, h1]
    simp [raisedOf]
  · simp only [runCode]
    rw [mainWith_events, hdev, h1]
    simp [raisedOf, teardownCount]

/-- C10: among the identity fields the published records depend only on the
device id: two runs that agree on device id, message type, message count,
token timestamps, clock and random source publish identical topic-payload
lists, whatever their project ids, cloud regions and registry ids. -/
theorem c10_identity_independence (gs : EnvState → Except PyErr ℝ)
    (ident ident' : DeviceIdentity) (h : ident.device_id = ident'.device_id)
    (m : MsgType) (N t1 t2 : ℕ) (r : Rand) (clock : ℕ → ℤ) :
    pubsOf (mainWith gs ident m N t1 t2 r clock).events =
      pubsOf (mainWith gs ident' m N t1 t2 r clock).events := by
  rw [mainWith_events, mainWith_events, h]

/-- C10 witness: two identities differing in project id, cloud region and
registry id but sharing the device id publish the same records. -/
theorem c10_witness :
    pubsOf (mainWith g_score_cube ⟨"proj-a", "region-a", "registry-a", "dev-1"⟩
        MsgType.event 3 0 0 okRand (fun _ => 0)).events =
      pubsOf (mainWith g_score_cube ⟨"proj-b", "region-b", "registry-b", "dev-1"⟩
        MsgType.event 3 0 0 okRand (fun _ => 0)).events :=
  c10_identity_independence g_score_cube
    ⟨"proj-a", "region-a", "registry-a", "dev-1"⟩
    ⟨"proj-b", "region-b", "registry-b", "dev-1"⟩ rfl
    MsgType.event 3 0 0 okRand (fun _ => 0)

end Mqtt
